import Mathlib

/-!
Verification of the Calciomercato Social backend (`src/main.py`,
`src/schemas.py`): a shallow embedding of the request-validation,
document-creation and aggregation-join layer, with theorems settling the
spec claims about it.

Documents are modelled as association lists of BSON-like values; the
MongoDB store becomes an explicit state record threaded through every
endpoint, which also reports the store operations it performed
(find_one / insert events) so that ordering claims can be stated.
-/

namespace Calcio

/-- A BSON value as this backend manipulates it: strings, ObjectIds
(carrying their 24-hex-char rendering), numbers, null, arrays and
sub-documents. -/
inductive BVal where
  | str (s : String)
  | oid (s : String)
  | num (n : Int)
  | null
  | arr (l : List BVal)
  | doc (l : List (String × BVal))
deriving Repr

mutual

/-- Structural equality on BSON values; in particular a `str` never
equals an `oid`, exactly as MongoDB never matches a string against an
ObjectId in `$lookup`. -/
def BVal.beq : BVal → BVal → Bool
  | .str a, .str b => a == b
  | .oid a, .oid b => a == b
  | .num a, .num b => a == b
  | .null, .null => true
  | .arr a, .arr b => beqList a b
  | .doc a, .doc b => beqEntries a b
  | _, _ => false

def beqList : List BVal → List BVal → Bool
  | [], [] => true
  | x :: xs, y :: ys => x.beq y && beqList xs ys
  | _, _ => false

def beqEntries : List (String × BVal) → List (String × BVal) → Bool
  | [], [] => true
  | (k, v) :: xs, (k2, v2) :: ys => k == k2 && v.beq v2 && beqEntries xs ys
  | _, _ => false

end

instance : BEq BVal := ⟨BVal.beq⟩

/-- A stored/returned document: an ordered dictionary. -/
abbrev Doc := List (String × BVal)

/-- Dictionary read: `d[k]` when present (`k in d` ↔ `some _`). -/
def lookupField (d : Doc) (k : String) : Option BVal :=
  (d.find? (fun kv => kv.1 == k)).map (fun kv => kv.2)

/-- Dictionary key removal, `d.pop(k)`'s effect on the dict. -/
def removeField (d : Doc) (k : String) : Doc :=
  d.filter (fun kv => kv.1 != k)

/-- Dictionary write `d[k] = v` (key at most once; new keys appended). -/
def setField (d : Doc) (k : String) (v : BVal) : Doc :=
  removeField d k ++ [(k, v)]

/-- The check `bson.ObjectId.is_valid` performs on a string: exactly 24 hex
characters. -/
def ObjectId.is_valid (s : String) : Bool :=
  s.length == 24 && s.toList.all (fun c => c.isDigit
    || ('a' ≤ c && c ≤ 'f') || ('A' ≤ c && c ≤ 'F'))

/-- Rendering `str()` of a BSON value as the serializer applies it to `_id`
fields: an ObjectId renders as its 24-hex-char string. -/
def bvalStr : BVal → String
  | .oid s => s
  | .str s => s
  | _ => ""

/-- The four collections of the store plus the engine's id-generation
state. Modelled from the spec: the MongoDB handle `db` lives in
`database.py`, which is not under `src/`; per §4.2/§3 it keeps each
collection in insertion order and assigns fresh 24-hex-char ObjectIds. -/
structure DB where
  player : List Doc
  club : List Doc
  transferlisting : List Doc
  transferoffer : List Doc
  nextId : Nat
deriving Repr

def DB.empty : DB := ⟨[], [], [], [], 0⟩

def DB.getColl (db : DB) : String → List Doc
  | "player" => db.player
  | "club" => db.club
  | "transferlisting" => db.transferlisting
  | "transferoffer" => db.transferoffer
  | _ => []

def DB.setColl (db : DB) (c : String) (l : List Doc) : DB :=
  match c with
  | "player" => { db with player := l }
  | "club" => { db with club := l }
  | "transferlisting" => { db with transferlisting := l }
  | "transferoffer" => { db with transferoffer := l }
  | _ => db

/-- The engine-assigned identifier for the n-th insert: a 24-character
hex string (zero-padded), hence always `ObjectId.is_valid`. -/
def genOid (n : Nat) : String :=
  let h := Nat.toDigits 16 n
  String.mk (List.replicate (24 - h.length) '0' ++ h)

/-- Modelled from the spec: `create_document(coll, doc)` from
`database.py` (not under `src/`); §4.2: a single atomic insert that
stores the document keyed by a freshly engine-assigned ObjectId `_id`
and returns that identifier as a plain string. -/
def create_document (coll : String) (d : Doc) (db : DB) : String × DB :=
  let i := genOid db.nextId
  (i, (DB.setColl { db with nextId := db.nextId + 1 } coll
        (db.getColl coll ++ [("_id", BVal.oid i) :: d])))

/-- Modelled from the spec: `get_documents(coll)` from `database.py`
(not under `src/`); §4.2: all documents in insertion order, the
storage-native `_id` still present. -/
def get_documents (coll : String) (db : DB) : List Doc :=
  db.getColl coll

/-- The query `find_one` on a collection with filter on `_id`: first document
whose `_id` equals the query value. -/
def find_one (db : DB) (coll : String) (idv : BVal) : Option Doc :=
  (db.getColl coll).find? (fun d => lookupField d "_id" == some idv)

/-- Store operations an endpoint performs, in order (for the claims
about check ordering: existence lookups and writes). -/
inductive Ev where
  | findOne (coll : String)
  | insert (coll : String)
deriving Repr, DecidableEq

/-- An endpoint outcome: `{"id": ...}` or an `HTTPException` with its
status code and detail string. -/
inductive Resp where
  | ok (i : String)
  | err (status : Nat) (detail : String)
deriving Repr, DecidableEq

/-- Function `serialize` from `main.py`: pop `_id`, expose it as the string
field `id`; empty or `_id`-less documents pass through. -/
def serialize (d : Doc) : Doc :=
  match lookupField d "_id" with
  | some v => setField (removeField d "_id") "id" (.str (bvalStr v))
  | none => d

/-- Python truthiness of an `Optional[str]`: `None` and `""` are falsy. -/
def truthy : Option String → Bool
  | none => false
  | some s => s != ""

def optStr : Option String → BVal
  | some s => .str s
  | none => .null

def optNum : Option Int → BVal
  | some n => .num n
  | none => .null

/-- Request model `PlayerIn` from `main.py` (the model actually bound to
`POST /players`): note it declares no numeric bounds at all, unlike
`schemas.Player`. Structure defaults mirror the pydantic defaults. -/
structure PlayerIn where
  name : String
  position : String
  age : Option Int := none
  nationality : Option String := none
  current_club_id : Option String := none
  height_cm : Option Int := none
  preferred_foot : Option String := none
  bio : Option String := none
  skills : Option (List String) := some []
  market_value : Option Int := none
deriving Repr

def PlayerIn.model_dump (p : PlayerIn) : Doc :=
  [("name", .str p.name), ("position", .str p.position),
   ("age", optNum p.age), ("nationality", optStr p.nationality),
   ("current_club_id", optStr p.current_club_id),
   ("height_cm", optNum p.height_cm),
   ("preferred_foot", optStr p.preferred_foot),
   ("bio", optStr p.bio),
   ("skills", match p.skills with
              | some l => .arr (l.map .str)
              | none => .null),
   ("market_value", optNum p.market_value)]

/-- Request model `ClubIn` from `main.py`; budget is optional with default 0. -/
structure ClubIn where
  name : String
  league : Option String := none
  country : Option String := none
  budget : Option Int := some 0
  stadium : Option String := none
  bio : Option String := none
deriving Repr

def ClubIn.model_dump (c : ClubIn) : Doc :=
  [("name", .str c.name), ("league", optStr c.league),
   ("country", optStr c.country), ("budget", optNum c.budget),
   ("stadium", optStr c.stadium), ("bio", optStr c.bio)]

/-- Request model `ListingIn` from `main.py`; no bound on `asking_price`, no
enum check on `status` (default `"open"`). -/
structure ListingIn where
  player_id : String
  from_club_id : Option String := none
  asking_price : Int
  status : String := "open"
deriving Repr

def ListingIn.model_dump (l : ListingIn) : Doc :=
  [("player_id", .str l.player_id),
   ("from_club_id", optStr l.from_club_id),
   ("asking_price", .num l.asking_price), ("status", .str l.status)]

/-- Request model `OfferIn` from `main.py`; `status` defaults to `"pending"`. -/
structure OfferIn where
  listing_id : String
  club_id : String
  offer_amount : Int
  status : String := "pending"
  message : Option String := none
deriving Repr

def OfferIn.model_dump (o : OfferIn) : Doc :=
  [("listing_id", .str o.listing_id), ("club_id", .str o.club_id),
   ("offer_amount", .num o.offer_amount), ("status", .str o.status),
   ("message", optStr o.message)]

/-- Endpoint `POST /players`: no referential checks, insert and return the id. -/
def create_player (p : PlayerIn) (db : DB) : Resp × DB × List Ev :=
  let (i, db2) := create_document "player" p.model_dump db
  (.ok i, db2, [.insert "player"])

/-- Endpoint `GET /players`: serialized documents, store untouched. -/
def list_players (db : DB) : List Doc × DB :=
  ((get_documents "player" db).map serialize, db)

/-- Endpoint `POST /clubs`. -/
def create_club (c : ClubIn) (db : DB) : Resp × DB × List Ev :=
  let (i, db2) := create_document "club" c.model_dump db
  (.ok i, db2, [.insert "club"])

/-- Endpoint `GET /clubs`. -/
def list_clubs (db : DB) : List Doc × DB :=
  ((get_documents "club" db).map serialize, db)

/-- Endpoint `POST /listings`: format-check `player_id`, format-check
`from_club_id` only when truthy, then one existence lookup for the
player, then the insert. -/
def create_listing (l : ListingIn) (db : DB) : Resp × DB × List Ev :=
  if !ObjectId.is_valid l.player_id then
    (.err 400 "Invalid player_id", db, [])
  else if truthy l.from_club_id
          && !ObjectId.is_valid (l.from_club_id.getD "") then
    (.err 400 "Invalid from_club_id", db, [])
  else
    match find_one db "player" (.oid l.player_id) with
    | none => (.err 404 "Player not found", db, [.findOne "player"])
    | some _ =>
      let (i, db2) := create_document "transferlisting" l.model_dump db
      (.ok i, db2, [.findOne "player", .insert "transferlisting"])

/-- Endpoint `POST /offers`: one combined format check over both ids, then
the two existence lookups, then the insert. -/
def create_offer (o : OfferIn) (db : DB) : Resp × DB × List Ev :=
  if !ObjectId.is_valid o.listing_id || !ObjectId.is_valid o.club_id then
    (.err 400 "Invalid ids", db, [])
  else
    match find_one db "transferlisting" (.oid o.listing_id) with
    | none =>
      (.err 404 "Listing not found", db, [.findOne "transferlisting"])
    | some _ =>
      match find_one db "club" (.oid o.club_id) with
      | none =>
        (.err 404 "Club not found", db,
         [.findOne "transferlisting", .findOne "club"])
      | some _ =>
        let (i, db2) := create_document "transferoffer" o.model_dump db
        (.ok i, db2,
         [.findOne "transferlisting", .findOne "club",
          .insert "transferoffer"])

/-- The value `$lookup` compares for a local field: a missing field is
treated as null. -/
def localVal (d : Doc) (k : String) : BVal :=
  (lookupField d k).getD .null

/-- Does foreign document `f` match local value `v` on `foreignF`?
MongoDB equality-match semantics: a missing foreign field matches null. -/
def foreignMatch (v : BVal) (f : Doc) (foreignF : String) : Bool :=
  match lookupField f foreignF with
  | some w => v == w
  | none => v == BVal.null

/-- One `$lookup` stage: attach, under `asF`, the array of foreign
documents whose `foreignF` equals the local `localF` value. -/
def lookupStage (forei : List Doc) (localF foreignF asF : String)
    (ds : List Doc) : List Doc :=
  ds.map (fun d =>
    setField d asF
      (.arr ((forei.filter
        (fun f => foreignMatch (localVal d localF) f foreignF)).map .doc)))

/-- Stage `$unwind` applied to one document on field `k`. Without
`preserveNullAndEmptyArrays`, empty/missing/null arrays drop the
document; with it, the document survives (an empty array removes the
field). Non-array values pass through as a single element. -/
def unwindDoc (k : String) (preserve : Bool) (d : Doc) : List Doc :=
  match lookupField d k with
  | some (.arr []) => if preserve then [removeField d k] else []
  | some (.arr xs) => xs.map (fun x => setField d k x)
  | some .null => if preserve then [d] else []
  | none => if preserve then [d] else []
  | some _ => [d]

def unwind (k : String) (preserve : Bool) (ds : List Doc) : List Doc :=
  ds.flatMap (unwindDoc k preserve)

/-- The nested-id flattening `list_listings`/`list_offers` apply to a
joined sub-document at key `k`: when the value is a dict containing
`_id` (and, where the code additionally tests truthiness, non-empty),
replace `_id` by the string field `id`. -/
def flattenNested (k : String) (requireTruthy : Bool) (d : Doc) : Doc :=
  match lookupField d k with
  | some (.doc nd) =>
    if requireTruthy && nd.isEmpty then d
    else
      match lookupField nd "_id" with
      | some v =>
        setField d k
          (.doc (setField (removeField nd "_id") "id" (.str (bvalStr v))))
      | none => d
  | _ => d

/-- Endpoint `GET /listings`: the four-stage aggregation pipeline (`$lookup`
player / `$unwind` / `$lookup` from_club / `$unwind` preserving empty),
then serialization with nested-id flattening. -/
def list_listings (db : DB) : List Doc × DB :=
  let s1 := lookupStage db.player "player_id" "_id" "player"
              db.transferlisting
  let s2 := unwind "player" false s1
  let s3 := lookupStage db.club "from_club_id" "_id" "from_club" s2
  let s4 := unwind "from_club" true s3
  (s4.map (fun d =>
     flattenNested "from_club" true
       (flattenNested "player" false (serialize d))), db)

/-- Endpoint `GET /offers`: one `$lookup` for the listing, a strict `$unwind`,
one `$lookup` for the club, a strict `$unwind`, then serialization with
nested flattening. -/
def list_offers (db : DB) : List Doc × DB :=
  let s1 := lookupStage db.transferlisting "listing_id" "_id" "listing"
              db.transferoffer
  let s2 := unwind "listing" false s1
  let s3 := lookupStage db.club "club_id" "_id" "club" s2
  let s4 := unwind "club" false s3
  (s4.map (fun d =>
     flattenNested "club" false
       (flattenNested "listing" false (serialize d))), db)

/-- The numeric bounds `schemas.Player` declares (`src/schemas.py`):
age 8–60, height_cm 100–230, market_value ≥ 0. These validators are
declared on the collection schema but `main.py` never imports them. -/
def schemaPlayerBoundsOk (p : PlayerIn) : Bool :=
  (p.age.all (fun a => 8 ≤ a && a ≤ 60))
    && (p.height_cm.all (fun h => 100 ≤ h && h ≤ 230))
    && (p.market_value.all (fun m => 0 ≤ m))

/-- The constraints `schemas.Transferlisting` declares:
`asking_price ≥ 0`; its `status` enum `open | under_review | closed`
appears only in a description string, so the enum is encoded here from
that documentation. -/
def schemaListingOk (l : ListingIn) : Bool :=
  (0 ≤ l.asking_price)
    && (l.status == "open" || l.status == "under_review"
        || l.status == "closed")

/-- A scalar BSON value: no array or sub-document structure. -/
def scalar : BVal → Bool
  | .doc _ => false
  | .arr _ => false
  | _ => true

/-- A flat value: a scalar or an array of scalars — the only value
shapes the create endpoints ever store. -/
def flatVal : BVal → Bool
  | .arr l => l.all scalar
  | v => scalar v

/-- A flat document: every field value is flat. -/
def flatDoc (d : Doc) : Bool := d.all (fun kv => flatVal kv.2)

/-- Keys of a document are pairwise distinct — documents are Python
dicts, so a key occurs at most once. -/
def keysND (d : Doc) : Prop := (d.map Prod.fst).Nodup

/-- A store document is dict-like (unique keys) and flat, as every
document the create endpoints write is. -/
def docWF (d : Doc) : Prop := flatDoc d = true ∧ keysND d

/-- Well-formedness of the store: every stored document is well
formed. -/
def storeWF (db : DB) : Prop :=
  (∀ d ∈ db.player, docWF d) ∧ (∀ d ∈ db.club, docWF d) ∧
    (∀ d ∈ db.transferlisting, docWF d) ∧ (∀ d ∈ db.transferoffer, docWF d)

/-- A clean value: no key `_id` occurs anywhere inside it (it is a
scalar, an array of scalars, or a sub-document of flat values none of
whose keys is `_id`). -/
def cleanVal : BVal → Bool
  | .doc nd => nd.all (fun kv => kv.1 != "_id" && flatVal kv.2)
  | v => flatVal v

/-- Top-level keys are never `_id`, and every value outside the listed
keys is clean; the listed keys are still awaiting nested-id flattening. -/
def cleanBut (ks : List String) (d : Doc) : Bool :=
  d.all (fun kv => kv.1 != "_id" && (ks.contains kv.1 || cleanVal kv.2))

/-- No key `_id` occurs anywhere in the document, at any depth. -/
def noIdDeep (d : Doc) : Bool := cleanBut [] d

/-- A value that is a flat sub-document or a flat value: the shape of a
joined field after its `$unwind`. -/
def subFlat : BVal → Bool
  | .doc nd => flatDoc nd
  | v => flatVal v

/-- Every value stored under key `k` satisfies `subFlat`. -/
def subFlatAt (k : String) (d : Doc) : Bool :=
  d.all (fun kv => kv.1 != k || subFlat kv.2)

/-- The shape `$lookup` leaves under its `as` key: an array whose
elements satisfy `subFlat`. -/
def arrSubFlat : BVal → Bool
  | .arr l => l.all subFlat
  | _ => false

/-- A pipeline document between a `$lookup` on `cur` and its `$unwind`:
the `cur` field holds an array of flat documents, fields in `done` hold
already-unwound flat sub-documents, everything else is flat. -/
def stageDoc (done : List String) (cur : String) (d : Doc) : Bool :=
  d.all (fun kv =>
    if kv.1 == cur then arrSubFlat kv.2
    else if done.contains kv.1 then subFlat kv.2
    else flatVal kv.2)

/-- A pipeline document after the `$unwind`s of all keys in `done`:
those fields hold flat sub-documents (or stayed flat), all others flat. -/
def joinedDoc (done : List String) (d : Doc) : Bool :=
  d.all (fun kv => if done.contains kv.1 then subFlat kv.2 else flatVal kv.2)

/-- The listing document newly written by a successful `POST /listings`
keeps both references as the client-sent plain strings. -/
def storedListingRefs (l : ListingIn) (db db2 : DB) : Prop :=
  ∃ d, db2.transferlisting = db.transferlisting ++ [d] ∧
    lookupField d "player_id" = some (.str l.player_id) ∧
    lookupField d "from_club_id" = some (optStr l.from_club_id) ∧
    lookupField d "_id" = some (.oid (genOid db.nextId))

/-- The offer document newly written by a successful `POST /offers`
keeps both references as the client-sent plain strings. -/
def storedOfferRefs (o : OfferIn) (db db2 : DB) : Prop :=
  ∃ d, db2.transferoffer = db.transferoffer ++ [d] ∧
    lookupField d "listing_id" = some (.str o.listing_id) ∧
    lookupField d "club_id" = some (.str o.club_id) ∧
    lookupField d "_id" = some (.oid (genOid db.nextId))

/-- A string-valued local field never matches an ObjectId-valued
foreign `_id` in a `$lookup` stage. -/
def strNeverMatchesOid : Prop :=
  ∀ (d f : Doc) (localF : String) (s t : String),
    lookupField d localF = some (.str s) →
    lookupField f "_id" = some (.oid t) →
    foreignMatch (localVal d localF) f "_id" = false

/-- A concrete run: one player, then one club, then one listing
referencing the player and the club, then one offer referencing the
listing and the club. -/
def wPlayerIn : PlayerIn := { name := "X", position := "Forward" }

def wClubIn : ClubIn := { name := "Roma" }

def wdbP : DB := (create_player wPlayerIn DB.empty).2.1

def wdbPC : DB := (create_club wClubIn wdbP).2.1

def wListingIn : ListingIn :=
  { player_id := genOid 0, from_club_id := some (genOid 1),
    asking_price := 1000 }

def wListingRes : Resp × DB × List Ev := create_listing wListingIn wdbPC

def wdbL : DB := wListingRes.2.1

def wOfferIn : OfferIn :=
  { listing_id := genOid 2, club_id := genOid 1, offer_amount := 500 }

def wOfferRes : Resp × DB × List Ev := create_offer wOfferIn wdbL

def wdbO : DB := wOfferRes.2.1

/-- The out-of-bounds player used to exhibit the missing validation:
age 200 lies far outside the declared 8–60 bound. -/
def c2Player : PlayerIn := { name := "Y", position := "GK", age := some 200 }

/-- A listing input with a negative asking price and a status outside
the documented enum. -/
def c2Listing : ListingIn :=
  { player_id := genOid 0, asking_price := -5, status := "weird" }

/-- A pair of offer inputs that differ in which id field is malformed. -/
def c4OfferBadListing : OfferIn :=
  { listing_id := "zzz", club_id := genOid 1, offer_amount := 1 }

def c4OfferBadClub : OfferIn :=
  { listing_id := genOid 1, club_id := "zzz", offer_amount := 1 }

/-- A listing whose player_id and from_club_id are both malformed. -/
def c9Listing : ListingIn :=
  { player_id := "zzz", from_club_id := some "yyy", asking_price := 1 }

/-- Inputs relying on every optional default, for the defaults claim. -/
def c8ListingIn : ListingIn := { player_id := genOid 0, asking_price := 5 }

def c8ListingRes : Resp × DB × List Ev := create_listing c8ListingIn wdbPC

def c8OfferIn : OfferIn :=
  { listing_id := genOid 2, club_id := genOid 1, offer_amount := 9 }

def c8OfferRes : Resp × DB × List Ev :=
  create_offer c8OfferIn c8ListingRes.2.1

@[simp]
theorem getColl_player (db : DB) : DB.getColl db "player" = db.player := rfl

@[simp]
theorem getColl_club (db : DB) : DB.getColl db "club" = db.club := rfl

@[simp]
theorem getColl_listing (db : DB) :
    DB.getColl db "transferlisting" = db.transferlisting := rfl

@[simp]
theorem getColl_offer (db : DB) :
    DB.getColl db "transferoffer" = db.transferoffer := rfl

@[simp]
theorem setColl_player (db : DB) (x : List Doc) :
    DB.setColl db "player" x = { db with player := x } := rfl

@[simp]
theorem setColl_club (db : DB) (x : List Doc) :
    DB.setColl db "club" x = { db with club := x } := rfl

@[simp]
theorem setColl_listing (db : DB) (x : List Doc) :
    DB.setColl db "transferlisting" x = { db with transferlisting := x } := rfl

@[simp]
theorem setColl_offer (db : DB) (x : List Doc) :
    DB.setColl db "transferoffer" x = { db with transferoffer := x } := rfl

/-- Inversion of a successful listing creation. -/
theorem create_listing_ok (l : ListingIn) (db db2 : DB) (i : String)
    (ev : List Ev) (h : create_listing l db = (.ok i, db2, ev)) :
    i = genOid db.nextId ∧
    db2 = { db with
            transferlisting := db.transferlisting
              ++ [("_id", BVal.oid (genOid db.nextId)) :: l.model_dump],
            nextId := db.nextId + 1 } ∧
    ev = [.findOne "player", .insert "transferlisting"] := by
  cases h1 : ObjectId.is_valid l.player_id with
  | false => simp [create_listing, h1] at h
  | true =>
    cases h2 : truthy l.from_club_id
        && !ObjectId.is_valid (l.from_club_id.getD "") with
    | true => simp [create_listing, h1, h2] at h
    | false =>
      cases h3 : find_one db "player" (.oid l.player_id) with
      | none => simp [create_listing, h1, h2, h3] at h
      | some p =>
        simp [create_listing, h1, h2, h3, create_document] at h
        exact ⟨h.1.symm, h.2.1.symm, h.2.2.symm⟩

/-- Inversion of a successful offer creation. -/
theorem create_offer_ok (o : OfferIn) (db db2 : DB) (i : String)
    (ev : List Ev) (h : create_offer o db = (.ok i, db2, ev)) :
    i = genOid db.nextId ∧
    db2 = { db with
            transferoffer := db.transferoffer
              ++ [("_id", BVal.oid (genOid db.nextId)) :: o.model_dump],
            nextId := db.nextId + 1 } ∧
    ev = [.findOne "transferlisting", .findOne "club",
          .insert "transferoffer"] := by
  cases h1 : (!ObjectId.is_valid o.listing_id
      || !ObjectId.is_valid o.club_id) with
  | true => simp [create_offer, h1] at h
  | false =>
    cases h2 : find_one db "transferlisting" (.oid o.listing_id) with
    | none => simp [create_offer, h1, h2] at h
    | some x =>
      cases h3 : find_one db "club" (.oid o.club_id) with
      | none => simp [create_offer, h1, h2, h3] at h
      | some y =>
        simp [create_offer, h1, h2, h3, create_document] at h
        exact ⟨h.1.symm, h.2.1.symm, h.2.2.symm⟩

/-- The only traces `create_listing` can leave: nothing (a format
rejection), one lookup (a not-found rejection), or a lookup followed by
the write. -/
theorem create_listing_traces (l : ListingIn) (db : DB) :
    (create_listing l db).2.2 = [] ∨
    (create_listing l db).2.2 = [Ev.findOne "player"] ∨
    (create_listing l db).2.2
      = [Ev.findOne "player", Ev.insert "transferlisting"] := by
  cases h1 : ObjectId.is_valid l.player_id with
  | false => simp [create_listing, h1]
  | true =>
    cases h2 : truthy l.from_club_id
        && !ObjectId.is_valid (l.from_club_id.getD "") with
    | true => simp [create_listing, h1, h2]
    | false =>
      cases h3 : find_one db "player" (.oid l.player_id) with
      | none => simp [create_listing, h1, h2, h3]
      | some p => simp [create_listing, h1, h2, h3, create_document]

/-- A malformed id in an offer is rejected before any store access. -/
theorem create_offer_invalid (o : OfferIn) (db : DB)
    (h : ObjectId.is_valid o.listing_id = false
       ∨ ObjectId.is_valid o.club_id = false) :
    create_offer o db = (.err 400 "Invalid ids", db, []) := by
  rcases h with h | h <;> simp [create_offer, h]

/-- The from_club_id format rejection fires exactly when player_id is
well-formed and from_club_id is truthy but malformed. -/
theorem create_listing_fc_error_iff (l : ListingIn) (db : DB) :
    (create_listing l db).1 = .err 400 "Invalid from_club_id" ↔
      (ObjectId.is_valid l.player_id = true ∧
       truthy l.from_club_id = true ∧
       ObjectId.is_valid (l.from_club_id.getD "") = false) := by
  cases h1 : ObjectId.is_valid l.player_id with
  | false => simp [create_listing, h1]
  | true =>
    cases h2 : truthy l.from_club_id with
    | false =>
      simp only [create_listing, h1, h2, Bool.false_and, Bool.not_true,
        Bool.not_false, if_false, if_true, Bool.false_eq_true]
      cases h3 : find_one db "player" (.oid l.player_id) <;>
        simp [create_document]
    | true =>
      cases h3 : ObjectId.is_valid (l.from_club_id.getD "") with
      | false => simp [create_listing, h1, h2, h3]
      | true =>
        simp only [create_listing, h1, h2, h3, Bool.true_and,
          Bool.not_true, Bool.and_false, Bool.not_false]
        cases h4 : find_one db "player" (.oid l.player_id) <;>
          simp [create_document]

/-- C10: `GET /listings` is a pure, deterministic read — it returns the
store unchanged, and a second call on the resulting store returns the
same content as the first. -/
theorem c10_listings_read_pure (db : DB) :
    (list_listings db).2 = db ∧
    (list_listings ((list_listings db).2)).1 = (list_listings db).1 :=
  ⟨rfl, rfl⟩

/-- C5: a malformed player_id makes `POST /listings` answer 400
"Invalid player_id" with an empty store-operation trace (no existence
lookup, no write) and an unchanged store; moreover every
`create_listing` trace does its lookup before its write, and a
malformed id in `POST /offers` is likewise rejected with no trace. -/
theorem c5_format_check_precedes_lookup (l : ListingIn) (db : DB)
    (h : ObjectId.is_valid l.player_id = false) :
    create_listing l db = (.err 400 "Invalid player_id", db, []) ∧
    (∀ (l2 : ListingIn) (db2 : DB),
       (create_listing l2 db2).2.2 = [] ∨
       (create_listing l2 db2).2.2 = [Ev.findOne "player"] ∨
       (create_listing l2 db2).2.2
         = [Ev.findOne "player", Ev.insert "transferlisting"]) ∧
    (∀ (o : OfferIn) (db2 : DB),
       (ObjectId.is_valid o.listing_id = false
          ∨ ObjectId.is_valid o.club_id = false) →
       create_offer o db2 = (.err 400 "Invalid ids", db2, [])) := by
  refine ⟨by simp [create_listing, h], create_listing_traces, ?_⟩
  intro o db2 h2
  exact create_offer_invalid o db2 h2

theorem c5_format_check_precedes_lookup_witness :
    ObjectId.is_valid "zzz" = false ∧
    (create_listing { player_id := "zzz", asking_price := 1 } DB.empty
       = (.err 400 "Invalid player_id", DB.empty, []) ∧
     (∀ (l2 : ListingIn) (db2 : DB),
        (create_listing l2 db2).2.2 = [] ∨
        (create_listing l2 db2).2.2 = [Ev.findOne "player"] ∨
        (create_listing l2 db2).2.2
          = [Ev.findOne "player", Ev.insert "transferlisting"]) ∧
     (∀ (o : OfferIn) (db2 : DB),
        (ObjectId.is_valid o.listing_id = false
           ∨ ObjectId.is_valid o.club_id = false) →
        create_offer o db2 = (.err 400 "Invalid ids", db2, []))) :=
  ⟨by decide,
   c5_format_check_precedes_lookup
     { player_id := "zzz", asking_price := 1 } DB.empty (by decide)⟩

/-- C4 counterexample: a malformed listing_id and a malformed club_id
produce the very same offer rejection, detail "Invalid ids", so the
response does not name which id field failed. -/
theorem c4_offer_rejection_not_field_specific :
    (create_offer c4OfferBadListing DB.empty).1 = .err 400 "Invalid ids" ∧
    (create_offer c4OfferBadClub DB.empty).1 = .err 400 "Invalid ids" ∧
    (create_offer c4OfferBadListing DB.empty).1
      = (create_offer c4OfferBadClub DB.empty).1 :=
  ⟨rfl, rfl, rfl⟩

/-- C4 (amended): rejections of `POST /listings` name the specific id
field ("Invalid player_id" / "Invalid from_club_id"), while
`POST /offers` rejects any malformed id with the single combined detail
"Invalid ids" that does not distinguish listing_id from club_id. -/
theorem c4_listing_errors_name_field (l : ListingIn) (o : OfferIn)
    (db : DB)
    (h1 : ObjectId.is_valid l.player_id = false)
    (h2 : ObjectId.is_valid o.listing_id = false
        ∨ ObjectId.is_valid o.club_id = false) :
    create_listing l db = (.err 400 "Invalid player_id", db, []) ∧
    (∀ (l2 : ListingIn) (db2 : DB),
       ObjectId.is_valid l2.player_id = true →
       truthy l2.from_club_id = true →
       ObjectId.is_valid (l2.from_club_id.getD "") = false →
       create_listing l2 db2 = (.err 400 "Invalid from_club_id", db2, [])) ∧
    create_offer o db = (.err 400 "Invalid ids", db, []) := by
  refine ⟨by simp [create_listing, h1], ?_, create_offer_invalid o db h2⟩
  intro l2 db2 g1 g2 g3
  simp [create_listing, g1, g2, g3]

theorem c4_listing_errors_name_field_witness :
    ObjectId.is_valid "zzz" = false ∧
    (ObjectId.is_valid c4OfferBadListing.listing_id = false
       ∨ ObjectId.is_valid c4OfferBadListing.club_id = false) ∧
    (create_listing { player_id := "zzz", asking_price := 2 } DB.empty
       = (.err 400 "Invalid player_id", DB.empty, []) ∧
     (∀ (l2 : ListingIn) (db2 : DB),
        ObjectId.is_valid l2.player_id = true →
        truthy l2.from_club_id = true →
        ObjectId.is_valid (l2.from_club_id.getD "") = false →
        create_listing l2 db2
          = (.err 400 "Invalid from_club_id", db2, [])) ∧
     create_offer c4OfferBadListing DB.empty
       = (.err 400 "Invalid ids", DB.empty, [])) :=
  ⟨by decide, Or.inl (by decide),
   c4_listing_errors_name_field { player_id := "zzz", asking_price := 2 }
     c4OfferBadListing DB.empty (by decide) (Or.inl (by decide))⟩

/-- C6: a well-formed player_id that identifies no stored player makes
`POST /listings` answer 404 "Player not found" and leave the entire
store unchanged; `POST /offers` likewise answers 404 and writes nothing
when the referenced listing or club does not exist. -/
theorem c6_not_found_writes_nothing (l : ListingIn) (o : OfferIn)
    (db : DB)
    (hl1 : ObjectId.is_valid l.player_id = true)
    (hl2 : (truthy l.from_club_id
        && !ObjectId.is_valid (l.from_club_id.getD "")) = false)
    (hl3 : find_one db "player" (.oid l.player_id) = none)
    (ho1 : ObjectId.is_valid o.listing_id = true)
    (ho2 : ObjectId.is_valid o.club_id = true)
    (ho3 : find_one db "transferlisting" (.oid o.listing_id) = none
         ∨ find_one db "club" (.oid o.club_id) = none) :
    create_listing l db = (.err 404 "Player not found", db,
      [.findOne "player"]) ∧
    ((create_offer o db).1 = .err 404 "Listing not found" ∨
     (create_offer o db).1 = .err 404 "Club not found") ∧
    (create_offer o db).2.1 = db := by
  refine ⟨by simp [create_listing, hl1, hl2, hl3], ?_, ?_⟩
  · cases hfl : find_one db "transferlisting" (.oid o.listing_id) with
    | none => exact Or.inl (by simp [create_offer, ho1, ho2, hfl])
    | some x =>
      rcases ho3 with h | h
      · rw [hfl] at h; exact absurd h (by simp)
      · exact Or.inr (by simp [create_offer, ho1, ho2, hfl, h])
  · cases hfl : find_one db "transferlisting" (.oid o.listing_id) with
    | none => simp [create_offer, ho1, ho2, hfl]
    | some x =>
      rcases ho3 with h | h
      · rw [hfl] at h; exact absurd h (by simp)
      · simp [create_offer, ho1, ho2, hfl, h]

theorem c6_not_found_writes_nothing_witness :
    ObjectId.is_valid "aaaaaaaaaaaaaaaaaaaaaaaa" = true ∧
    find_one DB.empty "player"
      (.oid "aaaaaaaaaaaaaaaaaaaaaaaa") = none ∧
    (create_listing
        { player_id := "aaaaaaaaaaaaaaaaaaaaaaaa", asking_price := 3 }
        DB.empty
       = (.err 404 "Player not found", DB.empty, [.findOne "player"]) ∧
     ((create_offer
          { listing_id := "aaaaaaaaaaaaaaaaaaaaaaaa",
            club_id := "aaaaaaaaaaaaaaaaaaaaaaaa", offer_amount := 4 }
          DB.empty).1 = .err 404 "Listing not found" ∨
      (create_offer
          { listing_id := "aaaaaaaaaaaaaaaaaaaaaaaa",
            club_id := "aaaaaaaaaaaaaaaaaaaaaaaa", offer_amount := 4 }
          DB.empty).1 = .err 404 "Club not found") ∧
     (create_offer
         { listing_id := "aaaaaaaaaaaaaaaaaaaaaaaa",
           club_id := "aaaaaaaaaaaaaaaaaaaaaaaa", offer_amount := 4 }
         DB.empty).2.1 = DB.empty) :=
  ⟨by decide, rfl,
   c6_not_found_writes_nothing
     { player_id := "aaaaaaaaaaaaaaaaaaaaaaaa", asking_price := 3 }
     { listing_id := "aaaaaaaaaaaaaaaaaaaaaaaa",
       club_id := "aaaaaaaaaaaaaaaaaaaaaaaa", offer_amount := 4 }
     DB.empty (by decide) (by decide) rfl (by decide) (by decide)
     (Or.inl rfl)⟩

/-- C9 counterexample: with player_id also malformed, the right-hand
side of the claimed equivalence holds (from_club_id is truthy and
malformed) yet the endpoint rejects with "Invalid player_id", not with
"Invalid from_club_id" — so the claimed iff fails. -/
theorem c9_iff_fails_when_player_id_malformed :
    truthy c9Listing.from_club_id = true ∧
    ObjectId.is_valid (c9Listing.from_club_id.getD "") = false ∧
    (create_listing c9Listing DB.empty).1 = .err 400 "Invalid player_id" ∧
    (create_listing c9Listing DB.empty).1
      ≠ .err 400 "Invalid from_club_id" :=
  ⟨rfl, by decide, rfl, by decide⟩

/-- C9 (amended): `create_listing` answers 400 "Invalid from_club_id"
iff player_id is well-formed AND from_club_id is truthy and malformed;
an empty-string from_club_id bypasses the format check, and with a
well-formed, existing player_id the listing is written with
from_club_id stored as the empty string. -/
theorem c9_empty_from_club_bypasses_check (l : ListingIn) (db : DB)
    (h1 : l.from_club_id = some "")
    (h2 : ObjectId.is_valid l.player_id = true)
    (h3 : (find_one db "player" (.oid l.player_id)).isSome = true) :
    (∀ (l2 : ListingIn) (db2 : DB),
       (create_listing l2 db2).1 = .err 400 "Invalid from_club_id" ↔
         (ObjectId.is_valid l2.player_id = true ∧
          truthy l2.from_club_id = true ∧
          ObjectId.is_valid (l2.from_club_id.getD "") = false)) ∧
    (create_listing l db).2.1.transferlisting
      = db.transferlisting
        ++ [("_id", BVal.oid (genOid db.nextId)) :: l.model_dump] ∧
    lookupField l.model_dump "from_club_id" = some (.str "") := by
  refine ⟨create_listing_fc_error_iff, ?_, ?_⟩
  · cases hfo : find_one db "player" (.oid l.player_id) with
    | none => rw [hfo] at h3; simp at h3
    | some p =>
      have h2b : (truthy l.from_club_id
          && !ObjectId.is_valid (l.from_club_id.getD "")) = false := by
        rw [h1]; rfl
      simp [create_listing, h2, h2b, hfo, create_document]
  · simp [ListingIn.model_dump, lookupField, h1, optStr]

theorem c9_empty_from_club_bypasses_check_witness :
    ({ player_id := genOid 0, from_club_id := some "",
       asking_price := 7 } : ListingIn).from_club_id = some "" ∧
    ObjectId.is_valid (genOid 0) = true ∧
    (find_one wdbPC "player" (.oid (genOid 0))).isSome = true ∧
    ((∀ (l2 : ListingIn) (db2 : DB),
        (create_listing l2 db2).1 = .err 400 "Invalid from_club_id" ↔
          (ObjectId.is_valid l2.player_id = true ∧
           truthy l2.from_club_id = true ∧
           ObjectId.is_valid (l2.from_club_id.getD "") = false)) ∧
     (create_listing
         { player_id := genOid 0, from_club_id := some "",
           asking_price := 7 } wdbPC).2.1.transferlisting
       = wdbPC.transferlisting
         ++ [("_id", BVal.oid (genOid wdbPC.nextId))
              :: ListingIn.model_dump
                   { player_id := genOid 0, from_club_id := some "",
                     asking_price := 7 }] ∧
     lookupField
       (ListingIn.model_dump
         { player_id := genOid 0, from_club_id := some "",
           asking_price := 7 }) "from_club_id" = some (.str "")) :=
  ⟨rfl, by decide, rfl,
   c9_empty_from_club_bypasses_check
     { player_id := genOid 0, from_club_id := some "", asking_price := 7 }
     wdbPC rfl (by decide) rfl⟩

/-- C1: the round-trip join fails on the code. The scenario — a club, a
player with no club reference, a listing referencing both — is created
successfully (all three creates return ids), yet `GET /listings`
returns the empty sequence rather than one joined entry: the listing
stores player_id as a plain string, the `$lookup` matches it against
the ObjectId-valued `_id`, the match is empty and the strict `$unwind`
on `player` drops the document. -/
theorem c1_roundtrip_join_returns_no_entry :
    (create_player wPlayerIn DB.empty).1 = .ok (genOid 0) ∧
    wPlayerIn.current_club_id = none ∧
    (create_club wClubIn wdbP).1 = .ok (genOid 1) ∧
    wListingIn.player_id = genOid 0 ∧
    wListingIn.from_club_id = some (genOid 1) ∧
    wListingRes.1 = .ok (genOid 2) ∧
    (list_listings wdbL).1 = [] :=
  ⟨rfl, rfl, rfl, rfl, rfl, rfl, rfl⟩

/-- C2: out-of-bounds numbers and out-of-enum statuses are NOT
rejected. A player aged 200 (bound is 8–60 in `schemas.Player`) is
accepted by `POST /players` and written to the store, and a listing
with a negative asking_price and status "weird" is accepted by
`POST /listings` and written — the request models in `main.py` declare
none of the bounds, and the endpoints never consult `schemas.py`. -/
theorem c2_bounds_and_enums_not_enforced :
    schemaPlayerBoundsOk c2Player = false ∧
    (create_player c2Player DB.empty).1 = .ok (genOid 0) ∧
    (create_player c2Player DB.empty).2.1.player
      = [("_id", BVal.oid (genOid 0)) :: c2Player.model_dump] ∧
    schemaListingOk c2Listing = false ∧
    (create_listing c2Listing (create_player c2Player DB.empty).2.1).1
      = .ok (genOid 1) ∧
    (create_listing c2Listing
        (create_player c2Player DB.empty).2.1).2.1.transferlisting
      = [("_id", BVal.oid (genOid 1)) :: c2Listing.model_dump] :=
  ⟨rfl, rfl, rfl, rfl, rfl, rfl⟩

/-- C3: a successful `POST /listings` writes player_id and from_club_id
exactly as the client-supplied strings while the stored document is
keyed by an ObjectId `_id`; a successful `POST /offers` likewise stores
listing_id and club_id as strings; and a string-typed local field never
matches the ObjectId-typed foreign `_id` in a `$lookup` stage. -/
theorem c3_refs_stored_as_strings (l : ListingIn) (o : OfferIn)
    (dbl dbl2 dbo dbo2 : DB) (i j : String) (evl evo : List Ev)
    (hl : create_listing l dbl = (.ok i, dbl2, evl))
    (ho : create_offer o dbo = (.ok j, dbo2, evo)) :
    storedListingRefs l dbl dbl2 ∧ storedOfferRefs o dbo dbo2 ∧
    strNeverMatchesOid := by
  obtain ⟨hi, hdb, hev⟩ := create_listing_ok l dbl dbl2 i evl hl
  obtain ⟨hi2, hdb2, hev2⟩ := create_offer_ok o dbo dbo2 j evo ho
  refine ⟨⟨("_id", BVal.oid (genOid dbl.nextId)) :: l.model_dump,
           by rw [hdb], rfl, rfl, rfl⟩,
          ⟨("_id", BVal.oid (genOid dbo.nextId)) :: o.model_dump,
           by rw [hdb2], rfl, rfl, rfl⟩, ?_⟩
  intro d f localF s t hd hf
  unfold foreignMatch localVal
  rw [hd, hf]
  rfl

theorem c3_refs_stored_as_strings_witness :
    create_listing wListingIn wdbPC
      = (.ok (genOid 2), wdbL, wListingRes.2.2) ∧
    create_offer wOfferIn wdbL = (.ok (genOid 3), wdbO, wOfferRes.2.2) ∧
    (storedListingRefs wListingIn wdbPC wdbL ∧
     storedOfferRefs wOfferIn wdbL wdbO ∧ strNeverMatchesOid) :=
  ⟨rfl, rfl,
   c3_refs_stored_as_strings wListingIn wOfferIn wdbPC wdbL wdbL wdbO
     (genOid 2) (genOid 3) wListingRes.2.2 wOfferRes.2.2 rfl rfl⟩

/-- C8: omitted optional fields are stored with their declared
defaults — skills as the empty list, budget as 0, listing status as
"open", offer status as "pending" — both in the validated model and in
the document actually written. -/
theorem c8_defaults_applied (n p cn pid lid cid : String)
    (price amt : Int) (db dbl dbl2 dbo dbo2 : DB) (i j : String)
    (evl evo : List Ev)
    (hl : create_listing { player_id := pid, asking_price := price } dbl
        = (.ok i, dbl2, evl))
    (ho : create_offer
        { listing_id := lid, club_id := cid, offer_amount := amt } dbo
        = (.ok j, dbo2, evo)) :
    (create_player { name := n, position := p } db).2.1.player
      = db.player ++ [("_id", BVal.oid (genOid db.nextId))
          :: PlayerIn.model_dump { name := n, position := p }] ∧
    lookupField (PlayerIn.model_dump { name := n, position := p })
      "skills" = some (.arr []) ∧
    (create_club { name := cn } db).2.1.club
      = db.club ++ [("_id", BVal.oid (genOid db.nextId))
          :: ClubIn.model_dump { name := cn }] ∧
    lookupField (ClubIn.model_dump { name := cn }) "budget"
      = some (.num 0) ∧
    dbl2.transferlisting = dbl.transferlisting
      ++ [("_id", BVal.oid (genOid dbl.nextId))
          :: ListingIn.model_dump
               { player_id := pid, asking_price := price }] ∧
    lookupField
      (ListingIn.model_dump { player_id := pid, asking_price := price })
      "status" = some (.str "open") ∧
    dbo2.transferoffer = dbo.transferoffer
      ++ [("_id", BVal.oid (genOid dbo.nextId))
          :: OfferIn.model_dump
               { listing_id := lid, club_id := cid,
                 offer_amount := amt }] ∧
    lookupField
      (OfferIn.model_dump
        { listing_id := lid, club_id := cid, offer_amount := amt })
      "status" = some (.str "pending") := by
  obtain ⟨hi, hdb, hev⟩ := create_listing_ok _ _ _ _ _ hl
  obtain ⟨hi2, hdb2, hev2⟩ := create_offer_ok _ _ _ _ _ ho
  exact ⟨rfl, rfl, rfl, rfl, by rw [hdb], rfl, by rw [hdb2], rfl⟩

theorem c8_defaults_applied_witness :
    create_listing c8ListingIn wdbPC
      = (.ok (genOid 2), c8ListingRes.2.1, c8ListingRes.2.2) ∧
    create_offer c8OfferIn c8ListingRes.2.1
      = (.ok (genOid 3), c8OfferRes.2.1, c8OfferRes.2.2) ∧
    ((create_player { name := "N", position := "P" } DB.empty).2.1.player
       = DB.empty.player ++ [("_id", BVal.oid (genOid DB.empty.nextId))
           :: PlayerIn.model_dump { name := "N", position := "P" }] ∧
     lookupField (PlayerIn.model_dump { name := "N", position := "P" })
       "skills" = some (.arr []) ∧
     (create_club { name := "C" } DB.empty).2.1.club
       = DB.empty.club ++ [("_id", BVal.oid (genOid DB.empty.nextId))
           :: ClubIn.model_dump { name := "C" }] ∧
     lookupField (ClubIn.model_dump { name := "C" }) "budget"
       = some (.num 0) ∧
     c8ListingRes.2.1.transferlisting = wdbPC.transferlisting
       ++ [("_id", BVal.oid (genOid wdbPC.nextId))
           :: ListingIn.model_dump
                { player_id := genOid 0, asking_price := 5 }] ∧
     lookupField
       (ListingIn.model_dump { player_id := genOid 0, asking_price := 5 })
       "status" = some (.str "open") ∧
     c8OfferRes.2.1.transferoffer = c8ListingRes.2.1.transferoffer
       ++ [("_id", BVal.oid (genOid c8ListingRes.2.1.nextId))
           :: OfferIn.model_dump
                { listing_id := genOid 2, club_id := genOid 1,
                  offer_amount := 9 }] ∧
     lookupField
       (OfferIn.model_dump
         { listing_id := genOid 2, club_id := genOid 1,
           offer_amount := 9 })
       "status" = some (.str "pending")) :=
  ⟨rfl, rfl,
   c8_defaults_applied "N" "P" "C" (genOid 0) (genOid 2) (genOid 1)
     5 9 DB.empty wdbPC c8ListingRes.2.1 c8ListingRes.2.1 c8OfferRes.2.1
     (genOid 2) (genOid 3) c8ListingRes.2.2 c8OfferRes.2.2 rfl rfl⟩

theorem flatVal_subFlat (v : BVal) (h : flatVal v = true) :
    subFlat v = true := by
  cases v <;> simp_all [flatVal, subFlat, scalar]

theorem flatVal_cleanVal (v : BVal) (h : flatVal v = true) :
    cleanVal v = true := by
  cases v <;> simp_all [flatVal, cleanVal, scalar]

theorem lookupField_some_mem (d : Doc) (k : String) (v : BVal)
    (h : lookupField d k = some v) : (k, v) ∈ d := by
  unfold lookupField at h
  cases hf : d.find? (fun kv => kv.1 == k) with
  | none => rw [hf] at h; simp at h
  | some kv =>
    rw [hf] at h
    simp at h
    have hm := List.mem_of_find?_eq_some hf
    have hp := List.find?_some hf
    have h1 : kv.1 = k := by simpa using hp
    have h2 : kv = (k, v) := by cases kv; simp_all
    rw [← h2]; exact hm

theorem lookupField_none_key (d : Doc) (k : String)
    (h : lookupField d k = none) : ∀ kv ∈ d, (kv.1 == k) = false := by
  unfold lookupField at h
  cases hf : d.find? (fun kv => kv.1 == k) with
  | some kv => rw [hf] at h; simp at h
  | none =>
    intro kv hm
    have := List.find?_eq_none.mp hf kv hm
    simpa using this

theorem mem_removeField (d : Doc) (k : String) (kv : String × BVal)
    (h : kv ∈ removeField d k) : kv ∈ d ∧ (kv.1 == k) = false := by
  unfold removeField at h
  have hm := List.mem_filter.mp h
  refine ⟨hm.1, ?_⟩
  have := hm.2
  simpa [bne] using this

theorem mem_setField (d : Doc) (k : String) (v : BVal)
    (kv : String × BVal) (h : kv ∈ setField d k v) :
    (kv ∈ d ∧ (kv.1 == k) = false) ∨ kv = (k, v) := by
  unfold setField at h
  rcases List.mem_append.mp h with h | h
  · exact Or.inl (mem_removeField d k kv h)
  · simp at h; exact Or.inr (by cases kv; simp_all)

theorem keysND_removeField (d : Doc) (k : String) (h : keysND d) :
    keysND (removeField d k) :=
  h.sublist ((List.filter_sublist d).map Prod.fst)

theorem keysND_setField (d : Doc) (k : String) (v : BVal)
    (h : keysND d) : keysND (setField d k v) := by
  unfold setField keysND
  rw [List.map_append, List.nodup_append]
  refine ⟨keysND_removeField d k h, List.nodup_singleton _, ?_⟩
  intro a ha hb
  have hak : a = k := by simpa using hb
  rcases List.mem_map.mp ha with ⟨kv, hkv, hfst⟩
  obtain ⟨_, hne⟩ := mem_removeField d k kv hkv
  rw [hfst, hak, beq_self_eq_true] at hne
  simp at hne

theorem keysND_serialize (d : Doc) (h : keysND d) :
    keysND (serialize d) := by
  unfold serialize
  cases hx : lookupField d "_id" with
  | none => exact h
  | some v => exact keysND_setField _ _ _ (keysND_removeField d "_id" h)

theorem lookupField_cons (kv : String × BVal) (tl : List (String × BVal))
    (k : String) :
    lookupField (kv :: tl) k
      = if (kv.1 == k) = true then some kv.2 else lookupField tl k := by
  by_cases hc : (kv.1 == k) = true <;> simp [lookupField, List.find?, hc]

theorem keysND_lookup_unique (d : Doc) (kv : String × BVal)
    (hnd : keysND d) (hm : kv ∈ d) : lookupField d kv.1 = some kv.2 := by
  induction d with
  | nil => cases hm
  | cons hd2 tl ih =>
    have hnd2 : hd2.1 ∉ tl.map Prod.fst ∧ (tl.map Prod.fst).Nodup := by
      have h0 := hnd
      rw [keysND, List.map_cons, List.nodup_cons] at h0
      exact h0
    rw [lookupField_cons]
    rcases List.mem_cons.mp hm with heq | hm2
    · rw [heq]
      simp
    · have hne : (hd2.1 == kv.1) = false := by
        cases hc : hd2.1 == kv.1 with
        | false => rfl
        | true =>
          exfalso
          exact hnd2.1 (eq_of_beq hc ▸ List.mem_map.mpr ⟨kv, hm2, rfl⟩)
      rw [hne]
      simp only [Bool.false_eq_true, if_false]
      exact ih hnd2.2 hm2

theorem lookupField_removeField_ne (d : Doc) (k k2 : String)
    (h : (k == k2) = false) :
    lookupField (removeField d k2) k = lookupField d k := by
  induction d with
  | nil => rfl
  | cons kv tl ih =>
    unfold removeField at *
    rw [List.filter_cons]
    cases hkv : (kv.1 != k2) with
    | false =>
      have hk2 : kv.1 = k2 := by simpa using hkv
      have hne : (kv.1 == k) = false := by
        cases hc : kv.1 == k with
        | false => rfl
        | true => exfalso; rw [hk2] at hc; rw [eq_of_beq hc] at h; simp at h
      simp only [Bool.false_eq_true, if_false]
      rw [ih, lookupField_cons, hne]
      simp
    | true =>
      simp only [if_true]
      rw [lookupField_cons, lookupField_cons]
      by_cases hc : (kv.1 == k) = true <;> simp [hc, ih]

theorem lookupField_removeField_self (d : Doc) (k : String) :
    lookupField (removeField d k) k = none := by
  unfold lookupField
  cases hf : (removeField d k).find? (fun kv => kv.1 == k) with
  | none => rfl
  | some kv =>
    exfalso
    have hp := List.find?_some hf
    have hm := List.mem_of_find?_eq_some hf
    obtain ⟨_, hne⟩ := mem_removeField d k kv hm
    rw [hne] at hp
    simp at hp

theorem lookupField_append (d1 d2 : Doc) (k : String) :
    lookupField (d1 ++ d2) k = (lookupField d1 k).or (lookupField d2 k) := by
  unfold lookupField
  rw [List.find?_append]
  cases d1.find? (fun kv => kv.1 == k) <;> rfl

theorem lookupField_singleton (k k2 : String) (v : BVal) :
    lookupField [(k2, v)] k
      = if (k2 == k) = true then some v else none := by
  by_cases hc : (k2 == k) = true <;> simp [lookupField, List.find?, hc]

theorem beq_false_symm (a b2 : String) (h : (a == b2) = false) :
    (b2 == a) = false := by
  cases hc : b2 == a with
  | false => rfl
  | true => rw [eq_of_beq hc] at h; simp at h

theorem lookupField_setField_self (d : Doc) (k : String) (v : BVal) :
    lookupField (setField d k v) k = some v := by
  unfold setField
  rw [lookupField_append, lookupField_removeField_self d k,
    lookupField_singleton]
  simp

theorem lookupField_setField_ne (d : Doc) (k k2 : String) (v : BVal)
    (h : (k == k2) = false) :
    lookupField (setField d k2 v) k = lookupField d k := by
  unfold setField
  rw [lookupField_append, lookupField_removeField_ne d k k2 h,
    lookupField_singleton, beq_false_symm k k2 h]
  simp

theorem serialize_keeps_other_fields (d : Doc) (k : String)
    (h1 : (k == "_id") = false) (h2 : (k == "id") = false) :
    lookupField (serialize d) k = lookupField d k := by
  unfold serialize
  cases hx : lookupField d "_id" with
  | none => rfl
  | some v =>
    rw [lookupField_setField_ne _ _ _ _ h2]
    exact lookupField_removeField_ne d k "_id" h1

theorem serialize_exposes_id (d : Doc) (v : BVal)
    (h : lookupField d "_id" = some v) :
    lookupField (serialize d) "id" = some (.str (bvalStr v)) := by
  unfold serialize
  rw [h]
  exact lookupField_setField_self _ _ _

theorem joinedDoc_of_flat (done : List String) (d : Doc)
    (h : flatDoc d = true) : joinedDoc done d = true := by
  unfold joinedDoc
  unfold flatDoc at h
  rw [List.all_eq_true] at *
  intro kv hm
  have hv := h kv hm
  cases hc : done.contains kv.1 with
  | true => simp only [hc, if_true]; exact flatVal_subFlat _ hv
  | false => simp only [hc, Bool.false_eq_true, if_false]; exact hv

theorem stageDoc_of_lookup (done : List String) (asF : String)
    (fs : List Doc) (g : Doc → Bool) (d : Doc)
    (hf : ∀ f ∈ fs, flatDoc f = true)
    (hd : joinedDoc done d = true) :
    stageDoc done asF
      (setField d asF (.arr ((fs.filter g).map .doc))) = true := by
  unfold stageDoc
  rw [List.all_eq_true]
  intro kv hm
  rcases mem_setField _ _ _ _ hm with ⟨hmem, hne⟩ | heq
  · rw [hne]
    simp only [Bool.false_eq_true, if_false]
    have hb := List.all_eq_true.mp hd kv hmem
    exact hb
  · rw [heq]
    simp only [beq_self_eq_true, if_true]
    unfold arrSubFlat
    rw [List.all_eq_true]
    intro x hx
    rcases List.mem_map.mp hx with ⟨f, hfm, rfl⟩
    have hin : f ∈ fs := (List.mem_filter.mp hfm).1
    show subFlat (.doc f) = true
    unfold subFlat
    exact hf f hin

theorem unwindDoc_shape (k : String) (p : Bool) (d e : Doc)
    (he : e ∈ unwindDoc k p d) :
    (e = d ∧ ∀ xs, lookupField d k ≠ some (.arr xs)) ∨
    e = removeField d k ∨
    (∃ x xs, lookupField d k = some (.arr xs) ∧ x ∈ xs
       ∧ e = setField d k x) := by
  unfold unwindDoc at he
  cases hx : lookupField d k with
  | none =>
    rw [hx] at he
    cases p with
    | true => simp at he; exact Or.inl ⟨he, by intro xs h2; simp at h2⟩
    | false => simp at he
  | some v =>
    rw [hx] at he
    cases v with
    | arr xs =>
      cases xs with
      | nil =>
        cases p with
        | true => simp at he; exact Or.inr (Or.inl he)
        | false => simp at he
      | cons x xs2 =>
        simp only [List.mem_map] at he
        rcases he with ⟨y, hy, rfl⟩
        exact Or.inr (Or.inr ⟨y, x :: xs2, rfl, hy, rfl⟩)
    | null =>
      cases p with
      | true => simp at he; exact Or.inl ⟨he, by intro xs h2; simp at h2⟩
      | false => simp at he
    | str s =>
      simp at he
      exact Or.inl ⟨he, by intro xs h2; simp at h2⟩
    | oid s =>
      simp at he
      exact Or.inl ⟨he, by intro xs h2; simp at h2⟩
    | num n =>
      simp at he
      exact Or.inl ⟨he, by intro xs h2; simp at h2⟩
    | doc l =>
      simp at he
      exact Or.inl ⟨he, by intro xs h2; simp at h2⟩

theorem joined_of_unwindDoc (done : List String) (k : String) (p : Bool)
    (d e : Doc) (hd : stageDoc done k d = true)
    (he : e ∈ unwindDoc k p d) : joinedDoc (k :: done) e = true := by
  rcases unwindDoc_shape k p d e he with ⟨h1, hnoarr⟩ | h1 | ⟨x, xs, hx, hxs, h1⟩
  · rw [h1]
    unfold joinedDoc
    rw [List.all_eq_true]
    intro kv hm
    cases hkk : (kv.1 == k) with
    | true =>
      exfalso
      cases hlk : lookupField d k with
      | none =>
        have := lookupField_none_key d k hlk kv hm
        rw [hkk] at this
        cases this
      | some v =>
        have hmem := lookupField_some_mem d k v hlk
        have hb := List.all_eq_true.mp hd (k, v) hmem
        rw [beq_self_eq_true] at hb
        simp only [if_true] at hb
        cases v <;> simp [arrSubFlat] at hb
        case arr xs => exact hnoarr xs hlk
    | false =>
      rw [List.contains_cons, hkk, Bool.false_or]
      have hb := List.all_eq_true.mp hd kv hm
      rw [hkk] at hb
      simpa using hb
  · subst h1
    unfold joinedDoc
    rw [List.all_eq_true]
    intro kv hm
    obtain ⟨hmd, hne⟩ := mem_removeField d k kv hm
    rw [List.contains_cons, hne, Bool.false_or]
    have hb := List.all_eq_true.mp hd kv hmd
    rw [hne] at hb
    simpa using hb
  · subst h1
    unfold joinedDoc
    rw [List.all_eq_true]
    intro kv hm
    rcases mem_setField _ _ _ _ hm with ⟨hmd, hne⟩ | heq
    · rw [List.contains_cons, hne, Bool.false_or]
      have hb := List.all_eq_true.mp hd kv hmd
      rw [hne] at hb
      simpa using hb
    · rw [heq]
      simp only [List.contains_cons, beq_self_eq_true, Bool.true_or, if_true]
      have hmem := lookupField_some_mem d k _ hx
      have hb := List.all_eq_true.mp hd (k, .arr xs) hmem
      rw [beq_self_eq_true] at hb
      simp only [if_true] at hb
      unfold arrSubFlat at hb
      exact List.all_eq_true.mp hb x hxs

theorem keysND_unwindDoc (k : String) (p : Bool) (d e : Doc)
    (h : keysND d) (he : e ∈ unwindDoc k p d) : keysND e := by
  rcases unwindDoc_shape k p d e he with ⟨rfl, _⟩ | rfl | ⟨x, xs, _, _, rfl⟩
  · exact h
  · exact keysND_removeField d k h
  · exact keysND_setField d k x h

theorem cleanBut_serialize (done : List String) (d : Doc)
    (h : joinedDoc done d = true) : cleanBut done (serialize d) = true := by
  unfold serialize
  have hstep : ∀ kv : String × BVal, kv ∈ d →
      (done.contains kv.1 || cleanVal kv.2) = true := by
    intro kv hm
    have hb := List.all_eq_true.mp h kv hm
    cases hc : done.contains kv.1 with
    | true => rw [Bool.true_or]
    | false =>
      rw [hc] at hb
      simp only [Bool.false_eq_true, if_false] at hb
      rw [Bool.false_or]
      exact flatVal_cleanVal _ hb
  cases hx : lookupField d "_id" with
  | none =>
    unfold cleanBut
    rw [List.all_eq_true]
    intro kv hm
    have hk := lookupField_none_key d "_id" hx kv hm
    refine (Bool.and_eq_true _ _).mpr ⟨?_, hstep kv hm⟩
    rw [bne, hk]
    rfl
  | some v =>
    unfold cleanBut
    rw [List.all_eq_true]
    intro kv hm
    rcases mem_setField _ _ _ _ hm with ⟨hmd, _⟩ | heq
    · obtain ⟨hmem, hne⟩ := mem_removeField _ _ _ hmd
      refine (Bool.and_eq_true _ _).mpr ⟨?_, hstep kv hmem⟩
      rw [bne, hne]
      rfl
    · rw [heq]
      have h1 : (("id", BVal.str (bvalStr v)).1 != "_id") = true := rfl
      have h2 : cleanVal (BVal.str (bvalStr v)) = true := rfl
      refine (Bool.and_eq_true _ _).mpr ⟨h1, ?_⟩
      rw [h2, Bool.or_true]

theorem subFlatAt_of_joinedDoc (done : List String) (k : String)
    (d : Doc) (hc : done.contains k = true)
    (h : joinedDoc done d = true) : subFlatAt k d = true := by
  unfold subFlatAt
  rw [List.all_eq_true]
  intro kv hm
  cases hkv : (kv.1 == k) with
  | false =>
    rw [bne, hkv]
    rfl
  | true =>
    have hb := List.all_eq_true.mp h kv hm
    rw [eq_of_beq hkv, hc] at hb
    simp only [if_true] at hb
    rw [hb, Bool.or_true]

theorem subFlatAt_serialize (k : String) (d : Doc)
    (h : subFlatAt k d = true) : subFlatAt k (serialize d) = true := by
  unfold serialize
  cases hx : lookupField d "_id" with
  | none => exact h
  | some v =>
    unfold subFlatAt
    rw [List.all_eq_true]
    intro kv hm
    rcases mem_setField _ _ _ _ hm with ⟨hmd, _⟩ | heq
    · exact List.all_eq_true.mp h kv (mem_removeField _ _ _ hmd).1
    · rw [heq]
      have : subFlat (BVal.str (bvalStr v)) = true := rfl
      rw [this, Bool.or_true]

theorem flatDoc_setField (nd : Doc) (k2 : String) (v : BVal)
    (hv : flatVal v = true) (h : flatDoc nd = true) :
    flatDoc (setField nd k2 v) = true := by
  unfold flatDoc at *
  rw [List.all_eq_true] at *
  intro kv hm
  rcases mem_setField _ _ _ _ hm with ⟨hmd, _⟩ | heq
  · exact h kv hmd
  · rw [heq]; exact hv

theorem flatDoc_removeField (nd : Doc) (k2 : String)
    (h : flatDoc nd = true) : flatDoc (removeField nd k2) = true := by
  unfold flatDoc at *
  rw [List.all_eq_true] at *
  intro kv hm
  exact h kv (mem_removeField _ _ _ hm).1

theorem cleanVal_cleaned (nd : Doc) (s : String)
    (h : flatDoc nd = true) :
    cleanVal (.doc (setField (removeField nd "_id") "id" (.str s)))
      = true := by
  unfold cleanVal
  rw [List.all_eq_true]
  intro kv hm
  rcases mem_setField _ _ _ _ hm with ⟨hmd, _⟩ | heq
  · obtain ⟨hmem, hne⟩ := mem_removeField _ _ _ hmd
    refine (Bool.and_eq_true _ _).mpr ⟨by rw [bne, hne]; rfl, ?_⟩
    unfold flatDoc at h
    exact List.all_eq_true.mp h kv hmem
  · rw [heq]
    rfl

theorem flattenNested_shape (k : String) (b : Bool) (d : Doc) :
    (flattenNested k b d = d ∧
      (lookupField d k = none ∨
       ∃ v, lookupField d k = some v ∧
         (subFlat v = true → cleanVal v = true))) ∨
    (∃ nd v, lookupField d k = some (.doc nd)
       ∧ lookupField nd "_id" = some v
       ∧ flattenNested k b d = setField d k
           (.doc (setField (removeField nd "_id") "id"
             (.str (bvalStr v))))) := by
  cases hx : lookupField d k with
  | none =>
    have hval : flattenNested k b d = d := by
      unfold flattenNested
      rw [hx]
    exact Or.inl ⟨hval, Or.inl rfl⟩
  | some v =>
    cases v with
    | doc nd =>
      cases hbt : (b && nd.isEmpty) with
      | true =>
        have hval : flattenNested k b d = d := by
          unfold flattenNested
          simp only [hx, hbt, if_true]
        refine Or.inl ⟨hval, Or.inr ⟨.doc nd, rfl, ?_⟩⟩
        intro _
        have hnil : nd = [] :=
          List.isEmpty_iff.mp ((Bool.and_eq_true _ _).mp hbt).2
        rw [hnil]
        rfl
      | false =>
        cases hid : lookupField nd "_id" with
        | none =>
          have hval : flattenNested k b d = d := by
            unfold flattenNested
            simp only [hx, hbt, hid, Bool.false_eq_true, if_false]
          refine Or.inl ⟨hval, Or.inr ⟨.doc nd, rfl, ?_⟩⟩
          intro hs
          unfold cleanVal
          rw [List.all_eq_true]
          intro kv hm
          have hk := lookupField_none_key nd "_id" hid kv hm
          refine (Bool.and_eq_true _ _).mpr ⟨by rw [bne, hk]; rfl, ?_⟩
          unfold subFlat flatDoc at hs
          exact List.all_eq_true.mp hs kv hm
        | some w =>
          have hval : flattenNested k b d = setField d k
              (.doc (setField (removeField nd "_id") "id"
                (.str (bvalStr w)))) := by
            unfold flattenNested
            simp only [hx, hbt, hid, Bool.false_eq_true, if_false]
          exact Or.inr ⟨nd, w, rfl, hid, hval⟩
    | str s =>
      have hval : flattenNested k b d = d := by
        unfold flattenNested
        rw [hx]
      exact Or.inl ⟨hval, Or.inr ⟨_, rfl, fun hs => flatVal_cleanVal _ hs⟩⟩
    | oid s =>
      have hval : flattenNested k b d = d := by
        unfold flattenNested
        rw [hx]
      exact Or.inl ⟨hval, Or.inr ⟨_, rfl, fun hs => flatVal_cleanVal _ hs⟩⟩
    | num n =>
      have hval : flattenNested k b d = d := by
        unfold flattenNested
        rw [hx]
      exact Or.inl ⟨hval, Or.inr ⟨_, rfl, fun hs => flatVal_cleanVal _ hs⟩⟩
    | null =>
      have hval : flattenNested k b d = d := by
        unfold flattenNested
        rw [hx]
      exact Or.inl ⟨hval, Or.inr ⟨_, rfl, fun hs => flatVal_cleanVal _ hs⟩⟩
    | arr l =>
      have hval : flattenNested k b d = d := by
        unfold flattenNested
        rw [hx]
      exact Or.inl ⟨hval, Or.inr ⟨_, rfl, fun hs => flatVal_cleanVal _ hs⟩⟩

theorem subFlatAt_flattenNested (k2 k : String) (b : Bool) (d : Doc)
    (h : subFlatAt k2 d = true) :
    subFlatAt k2 (flattenNested k b d) = true := by
  rcases flattenNested_shape k b d with ⟨he, _⟩ | ⟨nd, v, hx, hid, he⟩
  · rw [he]; exact h
  · rw [he]
    unfold subFlatAt
    rw [List.all_eq_true]
    intro kv hm
    rcases mem_setField _ _ _ _ hm with ⟨hmd, _⟩ | heq
    · exact List.all_eq_true.mp h kv hmd
    · rw [heq]
      cases hkk : (k == k2) with
      | false =>
        have hbne : (k != k2) = true := by rw [bne, hkk]; rfl
        rw [hbne, Bool.true_or]
      | true =>
        have hmem := lookupField_some_mem d k _ hx
        have hsub := List.all_eq_true.mp h (k, .doc nd) hmem
        have hbne : (k != k2) = false := by rw [bne, hkk]; rfl
        rw [hbne, Bool.false_or] at hsub
        have hfd : flatDoc nd = true := by
          unfold subFlat at hsub; exact hsub
        have hcl : subFlat (.doc (setField (removeField nd "_id") "id"
            (.str (bvalStr v)))) = true := by
          unfold subFlat
          exact flatDoc_setField _ _ _ rfl (flatDoc_removeField _ _ hfd)
        rw [hcl, Bool.or_true]

theorem keysND_flattenNested (k : String) (b : Bool) (d : Doc)
    (h : keysND d) : keysND (flattenNested k b d) := by
  rcases flattenNested_shape k b d with ⟨he, _⟩ | ⟨nd, v, _, _, he⟩
  · rw [he]; exact h
  · rw [he]; exact keysND_setField _ _ _ h

theorem cleanBut_flattenNested (k : String) (ks : List String) (b : Bool)
    (d : Doc) (hnd : keysND d) (hsf : subFlatAt k d = true)
    (hk : (k == "_id") = false)
    (h : cleanBut (k :: ks) d = true) :
    cleanBut ks (flattenNested k b d) = true := by
  rcases flattenNested_shape k b d with ⟨he, hv⟩ | ⟨nd, v, hx, hid, he⟩
  · rw [he]
    unfold cleanBut
    rw [List.all_eq_true]
    intro kv hm
    have hb := List.all_eq_true.mp h kv hm
    obtain ⟨hb1, hb2⟩ := (Bool.and_eq_true _ _).mp hb
    refine (Bool.and_eq_true _ _).mpr ⟨hb1, ?_⟩
    rw [List.contains_cons] at hb2
    cases hkv : (kv.1 == k) with
    | false =>
      rw [hkv, Bool.false_or] at hb2
      exact hb2
    | true =>
      have huniq := keysND_lookup_unique d kv hnd hm
      rw [eq_of_beq hkv] at huniq
      rcases hv with hnone | ⟨w, hsome, himp⟩
      · rw [huniq] at hnone; cases hnone
      · rw [huniq] at hsome
        injection hsome with hveq
        have hsub := List.all_eq_true.mp hsf kv hm
        have hbne : (kv.1 != k) = false := by rw [bne, hkv]; rfl
        rw [hbne, Bool.false_or] at hsub
        have hcv := himp (hveq ▸ hsub)
        rw [← hveq] at hcv
        rw [hcv, Bool.or_true]
  · rw [he]
    unfold cleanBut
    rw [List.all_eq_true]
    intro kv hm
    rcases mem_setField _ _ _ _ hm with ⟨hmd, hne⟩ | heq
    · have hb := List.all_eq_true.mp h kv hmd
      obtain ⟨hb1, hb2⟩ := (Bool.and_eq_true _ _).mp hb
      refine (Bool.and_eq_true _ _).mpr ⟨hb1, ?_⟩
      rw [List.contains_cons, hne, Bool.false_or] at hb2
      exact hb2
    · rw [heq]
      refine (Bool.and_eq_true _ _).mpr ⟨by rw [bne, hk]; rfl, ?_⟩
      have hmem := lookupField_some_mem d k _ hx
      have hsub := List.all_eq_true.mp hsf (k, .doc nd) hmem
      have hbne : (k != k) = false := by rw [bne, beq_self_eq_true]; rfl
      rw [hbne, Bool.false_or] at hsub
      have hfd : flatDoc nd = true := by
        unfold subFlat at hsub; exact hsub
      have hcv := cleanVal_cleaned nd (bvalStr v) hfd
      rw [hcv, Bool.or_true]

theorem cleanBut_pair_swap (a b2 : String) (d : Doc)
    (h : cleanBut [a, b2] d = true) : cleanBut [b2, a] d = true := by
  unfold cleanBut at *
  rw [List.all_eq_true] at *
  intro kv hm
  have hb := h kv hm
  obtain ⟨hb1, hb2⟩ := (Bool.and_eq_true _ _).mp hb
  refine (Bool.and_eq_true _ _).mpr ⟨hb1, ?_⟩
  have hco : ([a, b2].contains kv.1) = ((kv.1 == a) || (kv.1 == b2)) := by
    rw [List.contains_cons, List.contains_cons]
    simp
  have hco2 : ([b2, a].contains kv.1) = ((kv.1 == b2) || (kv.1 == a)) := by
    rw [List.contains_cons, List.contains_cons]
    simp
  rw [hco] at hb2
  rw [hco2]
  cases hA : (kv.1 == a) <;> cases hB : (kv.1 == b2) <;> simp_all

theorem players_output_clean (db : DB) (h : storeWF db) :
    ∀ d ∈ (list_players db).1, noIdDeep d = true := by
  intro d hd
  rcases List.mem_map.mp hd with ⟨t, ht, rfl⟩
  unfold noIdDeep
  exact cleanBut_serialize [] t (joinedDoc_of_flat [] t (h.1 t ht).1)

theorem clubs_output_clean (db : DB) (h : storeWF db) :
    ∀ d ∈ (list_clubs db).1, noIdDeep d = true := by
  intro d hd
  rcases List.mem_map.mp hd with ⟨t, ht, rfl⟩
  unfold noIdDeep
  exact cleanBut_serialize [] t (joinedDoc_of_flat [] t (h.2.1 t ht).1)

theorem listings_output_clean (db : DB) (h : storeWF db) :
    ∀ d ∈ (list_listings db).1, noIdDeep d = true := by
  intro d hd
  rcases List.mem_map.mp hd with ⟨e, he4, rfl⟩
  rcases List.mem_flatMap.mp he4 with ⟨e3, he3, heu⟩
  rcases List.mem_map.mp he3 with ⟨e2, he2, rfl⟩
  rcases List.mem_flatMap.mp he2 with ⟨e1, he1, heu2⟩
  rcases List.mem_map.mp he1 with ⟨t, ht, rfl⟩
  have hwt := h.2.2.1 t ht
  have j0 := joinedDoc_of_flat [] t hwt.1
  have s1 := stageDoc_of_lookup [] "player" db.player
    (fun f => foreignMatch (localVal t "player_id") f "_id") t
    (fun f hf => (h.1 f hf).1) j0
  have j1 := joined_of_unwindDoc [] "player" false _ e2 s1 heu2
  have s2 := stageDoc_of_lookup ["player"] "from_club" db.club
    (fun f => foreignMatch (localVal e2 "from_club_id") f "_id") e2
    (fun f hf => (h.2.1 f hf).1) j1
  have j2 := joined_of_unwindDoc ["player"] "from_club" true _ e s2 heu
  have kt := hwt.2
  have k2 := keysND_unwindDoc "player" false _ e2
    (keysND_setField t "player" _ kt) heu2
  have k4 := keysND_unwindDoc "from_club" true _ e
    (keysND_setField e2 "from_club" _ k2) heu
  have k5 := keysND_serialize e k4
  have sfp := subFlatAt_of_joinedDoc ["from_club", "player"] "player" e
    (by rfl) j2
  have sfc := subFlatAt_of_joinedDoc ["from_club", "player"] "from_club" e
    (by rfl) j2
  have cb := cleanBut_serialize ["from_club", "player"] e j2
  have cb2 := cleanBut_pair_swap "from_club" "player" (serialize e) cb
  have sfp2 := subFlatAt_serialize "player" e sfp
  have sfc2 := subFlatAt_serialize "from_club" e sfc
  have step1 := cleanBut_flattenNested "player" ["from_club"] false
    (serialize e) k5 sfp2 (by rfl) cb2
  have sfc3 := subFlatAt_flattenNested "from_club" "player" false
    (serialize e) sfc2
  have kf1 := keysND_flattenNested "player" false (serialize e) k5
  have final := cleanBut_flattenNested "from_club" [] true
    (flattenNested "player" false (serialize e)) kf1 sfc3 (by rfl) step1
  unfold noIdDeep
  exact final

theorem offers_output_clean (db : DB) (h : storeWF db) :
    ∀ d ∈ (list_offers db).1, noIdDeep d = true := by
  intro d hd
  rcases List.mem_map.mp hd with ⟨e, he4, rfl⟩
  rcases List.mem_flatMap.mp he4 with ⟨e3, he3, heu⟩
  rcases List.mem_map.mp he3 with ⟨e2, he2, rfl⟩
  rcases List.mem_flatMap.mp he2 with ⟨e1, he1, heu2⟩
  rcases List.mem_map.mp he1 with ⟨t, ht, rfl⟩
  have hwt := h.2.2.2 t ht
  have j0 := joinedDoc_of_flat [] t hwt.1
  have s1 := stageDoc_of_lookup [] "listing" db.transferlisting
    (fun f => foreignMatch (localVal t "listing_id") f "_id") t
    (fun f hf => (h.2.2.1 f hf).1) j0
  have j1 := joined_of_unwindDoc [] "listing" false _ e2 s1 heu2
  have s2 := stageDoc_of_lookup ["listing"] "club" db.club
    (fun f => foreignMatch (localVal e2 "club_id") f "_id") e2
    (fun f hf => (h.2.1 f hf).1) j1
  have j2 := joined_of_unwindDoc ["listing"] "club" false _ e s2 heu
  have kt := hwt.2
  have k2 := keysND_unwindDoc "listing" false _ e2
    (keysND_setField t "listing" _ kt) heu2
  have k4 := keysND_unwindDoc "club" false _ e
    (keysND_setField e2 "club" _ k2) heu
  have k5 := keysND_serialize e k4
  have sfp := subFlatAt_of_joinedDoc ["club", "listing"] "listing" e
    (by rfl) j2
  have sfc := subFlatAt_of_joinedDoc ["club", "listing"] "club" e
    (by rfl) j2
  have cb := cleanBut_serialize ["club", "listing"] e j2
  have cb2 := cleanBut_pair_swap "club" "listing" (serialize e) cb
  have sfp2 := subFlatAt_serialize "listing" e sfp
  have sfc2 := subFlatAt_serialize "club" e sfc
  have step1 := cleanBut_flattenNested "listing" ["club"] false
    (serialize e) k5 sfp2 (by rfl) cb2
  have sfc3 := subFlatAt_flattenNested "club" "listing" false
    (serialize e) sfc2
  have kf1 := keysND_flattenNested "listing" false (serialize e) k5
  have final := cleanBut_flattenNested "club" [] false
    (flattenNested "listing" false (serialize e)) kf1 sfc3 (by rfl) step1
  unfold noIdDeep
  exact final

/-- C7: no read endpoint ever exposes the storage-native `_id`: for a
well-formed store, every document returned by `GET /players`, `/clubs`,
`/listings` and `/offers` contains no `_id` key at any depth (including
inside the joined player/from_club/listing/club sub-documents); the
serializer replaces `_id` by the plain string field `id` and keeps all
other fields unchanged. -/
theorem c7_no_storage_id_exposed (db : DB) (h : storeWF db) :
    (∀ d ∈ (list_players db).1, noIdDeep d = true) ∧
    (∀ d ∈ (list_clubs db).1, noIdDeep d = true) ∧
    (∀ d ∈ (list_listings db).1, noIdDeep d = true) ∧
    (∀ d ∈ (list_offers db).1, noIdDeep d = true) ∧
    (∀ (d : Doc) (k : String), (k == "_id") = false →
       (k == "id") = false →
       lookupField (serialize d) k = lookupField d k) ∧
    (∀ (d : Doc) (v : BVal), lookupField d "_id" = some v →
       lookupField (serialize d) "id" = some (.str (bvalStr v))) :=
  ⟨players_output_clean db h, clubs_output_clean db h,
   listings_output_clean db h, offers_output_clean db h,
   fun d k h1 h2 => serialize_keeps_other_fields d k h1 h2,
   fun d v hv => serialize_exposes_id d v hv⟩

theorem flatVal_str (s : String) : flatVal (.str s) = true := rfl

theorem flatVal_oid (s : String) : flatVal (.oid s) = true := rfl

theorem flatVal_null : flatVal .null = true := rfl

theorem flatVal_num (n : Int) : flatVal (.num n) = true := rfl

theorem flatVal_optStr (x : Option String) :
    flatVal (optStr x) = true := by cases x <;> rfl

theorem flatVal_optNum (x : Option Int) :
    flatVal (optNum x) = true := by cases x <;> rfl

theorem flatVal_str_arr (l : List String) :
    flatVal (.arr (l.map .str)) = true := by
  unfold flatVal
  rw [List.all_eq_true]
  intro v hv
  rcases List.mem_map.mp hv with ⟨s, _, rfl⟩
  rfl

theorem docWF_of_player (i : String) (p : PlayerIn) :
    docWF (("_id", BVal.oid i) :: p.model_dump) := by
  constructor
  · unfold flatDoc PlayerIn.model_dump
    cases hs : p.skills <;>
      simp [flatVal_str, flatVal_oid, flatVal_null, flatVal_str_arr,
        flatVal_optStr, flatVal_optNum]
  · show (List.map Prod.fst (("_id", BVal.oid i) :: p.model_dump)).Nodup
    have he : List.map Prod.fst (("_id", BVal.oid i) :: p.model_dump)
        = ["_id", "name", "position", "age", "nationality",
           "current_club_id", "height_cm", "preferred_foot", "bio",
           "skills", "market_value"] := rfl
    rw [he]
    decide

theorem docWF_of_club (i : String) (c : ClubIn) :
    docWF (("_id", BVal.oid i) :: c.model_dump) := by
  constructor
  · unfold flatDoc ClubIn.model_dump
    simp [flatVal_str, flatVal_oid, flatVal_null, flatVal_num,
      flatVal_optStr, flatVal_optNum]
  · show (List.map Prod.fst (("_id", BVal.oid i) :: c.model_dump)).Nodup
    have he : List.map Prod.fst (("_id", BVal.oid i) :: c.model_dump)
        = ["_id", "name", "league", "country", "budget", "stadium",
           "bio"] := rfl
    rw [he]
    decide

theorem docWF_of_listing (i : String) (l : ListingIn) :
    docWF (("_id", BVal.oid i) :: l.model_dump) := by
  constructor
  · unfold flatDoc ListingIn.model_dump
    simp [flatVal_str, flatVal_oid, flatVal_null, flatVal_num,
      flatVal_optStr, flatVal_optNum]
  · show (List.map Prod.fst (("_id", BVal.oid i) :: l.model_dump)).Nodup
    have he : List.map Prod.fst (("_id", BVal.oid i) :: l.model_dump)
        = ["_id", "player_id", "from_club_id", "asking_price",
           "status"] := rfl
    rw [he]
    decide

theorem docWF_of_offer (i : String) (o : OfferIn) :
    docWF (("_id", BVal.oid i) :: o.model_dump) := by
  constructor
  · unfold flatDoc OfferIn.model_dump
    simp [flatVal_str, flatVal_oid, flatVal_null, flatVal_num,
      flatVal_optStr, flatVal_optNum]
  · show (List.map Prod.fst (("_id", BVal.oid i) :: o.model_dump)).Nodup
    have he : List.map Prod.fst (("_id", BVal.oid i) :: o.model_dump)
        = ["_id", "listing_id", "club_id", "offer_amount", "status",
           "message"] := rfl
    rw [he]
    decide

theorem storeWF_wdbO : storeWF wdbO := by
  refine ⟨?_, ?_, ?_, ?_⟩ <;> intro d hd
  · exact (List.mem_singleton.mp hd) ▸ docWF_of_player (genOid 0) wPlayerIn
  · exact (List.mem_singleton.mp hd) ▸ docWF_of_club (genOid 1) wClubIn
  · exact (List.mem_singleton.mp hd) ▸ docWF_of_listing (genOid 2) wListingIn
  · exact (List.mem_singleton.mp hd) ▸ docWF_of_offer (genOid 3) wOfferIn

theorem c7_no_storage_id_exposed_witness :
    storeWF wdbO ∧
    ((∀ d ∈ (list_players wdbO).1, noIdDeep d = true) ∧
     (∀ d ∈ (list_clubs wdbO).1, noIdDeep d = true) ∧
     (∀ d ∈ (list_listings wdbO).1, noIdDeep d = true) ∧
     (∀ d ∈ (list_offers wdbO).1, noIdDeep d = true) ∧
     (∀ (d : Doc) (k : String), (k == "_id") = false →
        (k == "id") = false →
        lookupField (serialize d) k = lookupField d k) ∧
     (∀ (d : Doc) (v : BVal), lookupField d "_id" = some v →
        lookupField (serialize d) "id" = some (.str (bvalStr v)))) :=
  ⟨storeWF_wdbO, c7_no_storage_id_exposed wdbO storeWF_wdbO⟩

end Calcio
